import Mathlib

/-!
# Verification of the Astral scroll-driven 3D visualization engine

Shallow embedding of the scroll/timeline/scene-engine core of
`src/src/Astral.jsx` (the "Astral" repository), together with proofs of the
behavioural claims about it.

The file is organised in two parts: first the definitions embedding the
source, then the theorems.  The definitions cover:

* the pure scalar utilities (`clamp`, `remap`, easing curves, the chapter
  detector, the locomotive-scroll smoothing step, the Kessler-cloud opacity
  rule) over exact rationals;
* a small real 3-vector theory mirroring the `THREE.Vector3` operations the
  engine uses (`add`, `multiplyScalar`, `length`, `setLength`);
* the orbital kinematics (`orbitPos`, `satPos`);
* the collision state machine of `AstralEngine._danger`;
* the satellite visible-count rule of `AstralEngine._sats`;
* the per-particle debris update of `AstralEngine._debris`;
* the camera rig update of `AstralEngine._cam`.

JavaScript numbers are embedded as exact rationals (`ℚ`) where the source
only performs field operations and comparisons, and as real numbers (`ℝ`)
where transcendental functions (`Math.sin`, `Math.exp`, `Math.pow`) appear.
-/

namespace Astral

/-! ## Scalar utilities (src/src/Astral.jsx, §2 MATH)

`clamp`, `remap`, `smoothstep`, `smootherstep` as in the source.  The engine
variant's `clamp` defaults its bounds to `[0,1]`. -/

/-- `const clamp = (v, lo, hi) => Math.max(lo, Math.min(hi, v))`. -/
def clampQ (v lo hi : ℚ) : ℚ := max lo (min hi v)

/-- `const remap = (v, a, b) => clamp((v - a) / (b - a))` (engine variant,
clamped to `[0,1]`). -/
def remapQ (v a b : ℚ) : ℚ := clampQ ((v - a) / (b - a)) 0 1

/-- `const smooth = (t) => t * t * (3 - 2 * t)` (smoothstep). -/
def smoothstepQ (t : ℚ) : ℚ := t * t * (3 - 2 * t)

/-- `const smootherstep = t => t * t * t * (t * (t * 6 - 15) + 10)`. -/
def smootherstepQ (t : ℚ) : ℚ := t * t * t * (t * (t * 6 - 15) + 10)

/-- `const lerp = (a, b, t) => a + (b - a) * t`. -/
def lerpQ (a b t : ℚ) : ℚ := a + (b - a) * t

/-! ## Chapter detector (src/src/Astral.jsx line 1146, and the identical
inline expression in `useLocoScroll` line 1710 / `AstralEngine._loop`
line 2408).  The breakpoints are `PHASES = {P0:0, P1:0.2, P2:0.4, P3:0.6,
P4:0.8}`. -/

/-- `function getChapter(p) { if (p < 0.2) return 0; if (p < 0.4) return 1;
if (p < 0.6) return 2; if (p < 0.8) return 3; return 4; }`. -/
def getChapter (p : ℚ) : ℕ :=
  if p < 1/5 then 0
  else if p < 2/5 then 1
  else if p < 3/5 then 2
  else if p < 4/5 then 3
  else 4

/-! ## Locomotive scroll smoothing (src/src/Astral.jsx `useLocoScroll`,
lines 1687–1715). -/

/-- Scroll-event update of `raw`:
`raw.current = max > 0 ? clamp(window.scrollY / max) : 0`. -/
def rawUpdate (scrollY scrollMax : ℚ) : ℚ :=
  if 0 < scrollMax then clampQ (scrollY / scrollMax) 0 1 else 0

/-- The per-frame speed constant:
`const speed = Math.abs(delta) > 0.06 ? 0.055 : 0.028`. -/
def locoSpeed (delta : ℚ) : ℚ := if 3/50 < |delta| then 11/200 else 7/250

/-- One frame of the smoothing loop acting on `smooth.current`:
`const delta = raw.current - smooth.current;`
`smooth.current += delta * speed;`
`if (Math.abs(delta) < 0.00003) smooth.current = raw.current;`. -/
def locoStep (raw s : ℚ) : ℚ :=
  if |raw - s| < 3/100000 then raw
  else s + (raw - s) * locoSpeed (raw - s)

/-- `n` frames of the smoothing loop with `raw` held constant. -/
def locoIter (raw s : ℚ) : ℕ → ℚ
  | 0 => s
  | n + 1 => locoStep raw (locoIter raw s n)

/-! ## Kessler-ring cloud opacity (`AstralEngine._debris`, lines 2648–2677).

When `ch >= 4 && this.collisionDone` the uniform is set to
`clamp(p4 * 2.0, 0, 0.8)` where `p4 = smootherstep(remap(p, 0.8, 1.0))`
(computed in `_loop` line 2407); otherwise it is set to `0`. -/

/-- The Kessler-cloud opacity written by `AstralEngine._debris` on a frame
with collision flag `done` and engine progress `p`. -/
def kesslerOpacity (done : Bool) (p : ℚ) : ℚ :=
  if 4 ≤ getChapter p ∧ done = true then
    clampQ (smootherstepQ (remapQ p (4/5) 1) * 2) 0 (4/5)
  else 0

/-! ## Real 3-vectors (mirroring the `THREE.Vector3` operations the engine
uses: component-wise add, uniform scaling, `length`, `setLength`).

`THREE.Vector3.setLength(l)` is `normalize().multiplyScalar(l)`, and
`normalize()` divides by `this.length() || 1`, so a zero vector is left
unchanged. -/

structure Vec3 where
  x : ℝ
  y : ℝ
  z : ℝ

namespace Vec3

def add (v w : Vec3) : Vec3 := ⟨v.x + w.x, v.y + w.y, v.z + w.z⟩

def sub (v w : Vec3) : Vec3 := ⟨v.x - w.x, v.y - w.y, v.z - w.z⟩

def scale (c : ℝ) (v : Vec3) : Vec3 := ⟨c * v.x, c * v.y, c * v.z⟩

def normSq (v : Vec3) : ℝ := v.x^2 + v.y^2 + v.z^2

noncomputable def norm (v : Vec3) : ℝ := Real.sqrt v.normSq

/-- `v.distanceTo(w)` as in three.js: the Euclidean distance. -/
noncomputable def dist (v w : Vec3) : ℝ := (sub v w).norm

/-- `setLength(l)` as in three.js: `divideScalar(length() || 1)` followed by
`multiplyScalar(l)`. -/
noncomputable def setLength (v : Vec3) (l : ℝ) : Vec3 :=
  scale (l / (if v.norm = 0 then 1 else v.norm)) v

end Vec3

/-! ## Orbital kinematics (src/src/Astral.jsx lines 1663–1673 `orbitPos`,
line 1973 `satPos`, and the equivalent `satPosition` at lines 153–165). -/

/-- `const orbitPos = (radius, inc, asc, angle) => {...}`: circular orbit in
the XZ plane, rotated by inclination then by right ascension. -/
noncomputable def orbitPos (radius inc asc angle : ℝ) : Vec3 :=
  let x0 := Real.cos angle * radius
  let z0 := Real.sin angle * radius
  let y1 := -z0 * Real.sin inc
  let z1 := z0 * Real.cos inc
  ⟨x0 * Real.cos asc - z1 * Real.sin asc, y1,
    x0 * Real.sin asc + z1 * Real.cos asc⟩

/-- The orbital parameters of a pool or danger satellite (the fields of the
objects produced by `generateSats` that `satPos` reads). -/
structure Sat where
  r : ℝ
  inc : ℝ
  asc : ℝ
  phase : ℝ
  speed : ℝ

/-- `const satPos = (s, t) => orbitPos(s.r, s.inc, s.asc, s.phase + s.speed * t)`. -/
noncomputable def satPos (s : Sat) (t : ℝ) : Vec3 :=
  orbitPos s.r s.inc s.asc (s.phase + s.speed * t)

/-! ## The collision state machine (`AstralEngine._danger`, lines
2555–2641).

Control flow of `_danger(t, ch, p3, p4)` restricted to the collision
fields:

* `ch < 3`: danger meshes hidden and `collisionDone` cleared;
* `ch === 3 && !collisionDone`: convergence visuals only, no state change;
* `ch === 4 && !collisionDone`: the trigger — `collisionDone = true`,
  `collisionTime = t`, `collisionPt` set to the midpoint of the two danger
  satellites at `t`, `collisionR = collisionPt.length()`;
* `ch === 4 && collisionDone`: ring fade only, no state change;
* `ch === 3 && collisionDone`: no branch applies, no state change. -/

/-- The engine's constant `EARTH_RADIUS = 2.2`. -/
noncomputable def EARTH_RADIUS : ℝ := 2.2

/-- Danger satellite A:
`{ r: EARTH_RADIUS * 1.42, inc: 0.35, asc: 0.4, phase: 0, speed: 0.2 }`. -/
noncomputable def dangerA : Sat := ⟨EARTH_RADIUS * 1.42, 0.35, 0.4, 0, 0.2⟩

/-- Danger satellite B:
`{ r: EARTH_RADIUS * 1.42, inc: -0.3, asc: 0.4, phase: Math.PI * 0.82,
speed: 0.23 }`. -/
noncomputable def dangerB : Sat :=
  ⟨EARTH_RADIUS * 1.42, -0.3, 0.4, Real.pi * 0.82, 0.23⟩

/-- The midpoint of the two danger satellites at time `t`:
`addVectors(pA, pB).multiplyScalar(0.5)`. -/
noncomputable def dangerMid (t : ℝ) : Vec3 :=
  Vec3.scale 0.5 ((satPos dangerA t).add (satPos dangerB t))

/-- The collision-related engine state
(`collisionDone/collisionTime/collisionPt/collisionR`). -/
structure CollisionState where
  collisionDone : Bool
  collisionTime : ℝ
  collisionPt : Vec3
  collisionR : ℝ

/-- The engine state at construction time (`AstralEngine` constructor lines
2007–2010). -/
noncomputable def collisionInit : CollisionState := ⟨false, 0, ⟨0, 0, 0⟩, 0⟩

/-- One frame of `AstralEngine._danger` restricted to the collision
fields, given the chapter `ch` and elapsed time `t`. -/
noncomputable def dangerStep (ch : ℕ) (t : ℝ) (s : CollisionState) :
    CollisionState :=
  if ch < 3 then { s with collisionDone := false }
  else if ch = 3 ∧ s.collisionDone = false then s
  else if ch = 4 ∧ s.collisionDone = false then
    { collisionDone := true, collisionTime := t,
      collisionPt := dangerMid t, collisionR := (dangerMid t).norm }
  else s

/-- A sequence of frames, each a (chapter, time) pair, applied in order. -/
noncomputable def dangerRun (frames : List (ℕ × ℝ)) (s : CollisionState) :
    CollisionState :=
  frames.foldl (fun st f => dangerStep f.1 f.2 st) s

/-! ## Real-valued scalar utilities and the satellite visible count
(`AstralEngine._sats`, line 2516).

`const vis = ch === 0 ? 4
  : ch === 1 ? Math.round(lerp(4, SAT_POOL, outExpo(remap(this.progress, PHASES.P1, PHASES.P2))))
  : SAT_POOL;`
with `SAT_POOL = 200` and
`const outExpo = t => t === 1 ? 1 : 1 - Math.pow(2, -10 * t)`. -/

/-- `clamp` over the reals. -/
def clampR (v lo hi : ℝ) : ℝ := max lo (min hi v)

/-- `remap` over the reals (clamped to `[0,1]`). -/
noncomputable def remapR (v a b : ℝ) : ℝ := clampR ((v - a) / (b - a)) 0 1

/-- `lerp` over the reals. -/
def lerpR (a b t : ℝ) : ℝ := a + (b - a) * t

/-- `const outExpo = t => t === 1 ? 1 : 1 - Math.pow(2, -10 * t)`. -/
noncomputable def outExpo (t : ℝ) : ℝ :=
  if t = 1 then 1 else 1 - (2:ℝ) ^ (-10 * t)

/-- The chapter computed by the engine from its real-valued progress
(`AstralEngine._loop` line 2408, identical to `getChapter`). -/
noncomputable def chapterAt (p : ℝ) : ℕ :=
  if p < 0.2 then 0
  else if p < 0.4 then 1
  else if p < 0.6 then 2
  else if p < 0.8 then 3
  else 4

/-- The satellite visible count of `AstralEngine._sats` as a function of
the engine progress `p`. -/
noncomputable def visCount (p : ℝ) : ℤ :=
  if chapterAt p = 0 then 4
  else if chapterAt p = 1 then
    round (lerpR 4 200 (outExpo (remapR p 0.2 0.4)))
  else 200

/-! ## Debris particle update (`AstralEngine._debris`, lines 2643–2678).

Per active particle and frame, with `dt = t - collisionTime` and
`R = collisionR`:

`const decay = Math.exp(-dt * 0.12);`
`d.pos += d.vel * decay * 0.01;` (component-wise)
`const len = d.pos.length();`
`if (len > R * 1.18) d.pos.setLength(R * 1.18);`
`if (len < R * 0.85) d.pos.setLength(R * 0.85);`
`if (len < EARTH_RADIUS * 1.03) d.pos.setLength(EARTH_RADIUS * 1.03);`
`const drift = 0.035 + d.life * 0.05;`
`d.pos.x += Math.sin(t * drift + i * 0.031) * 0.0025;`
`d.pos.z += Math.cos(t * drift + i * 0.7) * 0.0025;`

Note the three clamp conditions all test `len`, the length *before* any
clamping, while each `setLength` rescales the current vector. -/

/-- A debris particle (`AstralEngine._initDebris`): position, velocity,
life in `[0,1]`, active flag.  Size and colour do not feed back into the
dynamics and are omitted. -/
structure DebrisParticle where
  pos : Vec3
  vel : Vec3
  life : ℝ
  active : Bool

/-- The velocity integration sub-step of `_debris`:
`d.pos += d.vel * Math.exp(-dt * 0.12) * 0.01`. -/
noncomputable def debrisIntegrate (dt : ℝ) (d : DebrisParticle) : Vec3 :=
  ⟨d.pos.x + d.vel.x * Real.exp (-dt * 0.12) * 0.01,
   d.pos.y + d.vel.y * Real.exp (-dt * 0.12) * 0.01,
   d.pos.z + d.vel.z * Real.exp (-dt * 0.12) * 0.01⟩

/-- The radial clamp sub-step of `_debris` applied to the integrated
position `p1`, given the stored collision radius `R`. -/
noncomputable def debrisClamp (R : ℝ) (p1 : Vec3) : Vec3 :=
  let len := p1.norm
  let p2 := if len > R * 1.18 then p1.setLength (R * 1.18) else p1
  let p3 := if len < R * 0.85 then p2.setLength (R * 0.85) else p2
  if len < EARTH_RADIUS * 1.03 then p3.setLength (EARTH_RADIUS * 1.03)
  else p3

/-- One full per-particle frame of `AstralEngine._debris` (for an active
particle, in chapter 4 with the collision triggered): integrate, clamp,
drift. -/
noncomputable def debrisStep (R t dt : ℝ) (i : ℕ) (d : DebrisParticle) :
    DebrisParticle :=
  let p4 := debrisClamp R (debrisIntegrate dt d)
  let drift := 0.035 + d.life * 0.05
  { d with pos :=
      ⟨p4.x + Real.sin (t * drift + i * 0.031) * 0.0025,
       p4.y,
       p4.z + Real.cos (t * drift + i * 0.7) * 0.0025⟩ }

/-! ## Camera rig update (`AstralEngine._cam`, lines 2426–2484).

State read/written each frame: the smoothed spherical coordinates
`camSph = (radius, phi, theta)`, the user free-look offsets
`camUserTheta/camUserPhi`, the smoothed field of view `currentFov`, and the
shake envelope `_shakeOn/_shakeT`.  The camera position is then set from
the spherical coordinates, displaced vertically by the scroll-velocity skew
`this.scrollVelocity * 15 * 0.3`, and during an active shake envelope
displaced in x and y by the shake oscillation. -/

/-- `FOV_MAP = [50, 62, 36, 30, 44]`. -/
def FOV_MAP : ℕ → ℝ
  | 0 => 50
  | 1 => 62
  | 2 => 36
  | 3 => 30
  | _ => 44

/-- `CAM_DIST = 8.5`. -/
noncomputable def CAM_DIST : ℝ := 8.5

/-- The per-chapter locked framing table `camLocked` (theta, phi, dist)
from the `AstralEngine` constructor, lines 1998–2004. -/
noncomputable def camLocked : ℕ → ℝ × ℝ × ℝ
  | 0 => (0, Real.pi / 2 - 0.08, CAM_DIST)
  | 1 => (0.3, Real.pi / 2, CAM_DIST + 1.5)
  | 2 => (0.1, Real.pi / 2 - 0.12, CAM_DIST - 1.5)
  | 3 => (0, Real.pi / 2 + 0.08, CAM_DIST - 3.0)
  | _ => (0, Real.pi / 2, CAM_DIST + 0.5)

/-- `atan2(y, x)` (the angle of the point `(x, y)`), used by
`THREE.Spherical.setFromVector3` for the azimuth `theta = atan2(x, z)`. -/
noncomputable def atan2 (y x : ℝ) : ℝ := Complex.arg ⟨x, y⟩

/-- `THREE.Spherical().setFromVector3(v)`: radius, polar angle `phi`,
azimuth `theta`.  For the zero vector both angles are zero. -/
noncomputable def sphericalFromVec3 (v : Vec3) : ℝ × ℝ × ℝ :=
  let radius := v.norm
  if radius = 0 then (0, 0, 0)
  else (radius, Real.arccos (clampR (v.y / radius) (-1) 1), atan2 v.x v.z)

/-- `Vector3.setFromSpherical(s)` with `s = (radius, phi, theta)`:
`x = r sin φ sin θ`, `y = r cos φ`, `z = r sin φ cos θ`. -/
noncomputable def vec3FromSpherical (radius phi theta : ℝ) : Vec3 :=
  ⟨radius * Real.sin phi * Real.sin theta,
   radius * Real.cos phi,
   radius * Real.sin phi * Real.cos theta⟩

/-- The camera-rig state mutated by `_cam`. -/
structure CamState where
  sphRadius : ℝ
  sphPhi : ℝ
  sphTheta : ℝ
  userTheta : ℝ
  userPhi : ℝ
  currentFov : ℝ
  shakeOn : Bool
  shakeT : ℝ

/-- The per-frame inputs read by `_cam`. -/
structure CamInputs where
  t : ℝ
  ch : ℕ
  p3 : ℝ
  isScrolling : Bool
  isDragging : Bool
  dragDX : ℝ
  dragDY : ℝ
  scrollVelocity : ℝ

/-- The updated user free-look offsets (`_cam` lines 2432–2445). -/
noncomputable def camUserUpdate (st : CamState) (inp : CamInputs) : ℝ × ℝ :=
  if inp.isScrolling = false then
    if inp.isDragging = true then
      (st.userTheta + inp.dragDX * 0.004,
        clampR (st.userPhi - inp.dragDY * 0.004)
          (-(Real.pi * 0.38)) (Real.pi * 0.38))
    else (st.userTheta + 0.003, st.userPhi)
  else (st.userTheta * 0.93, st.userPhi * 0.93)

/-- The framing target (theta, phi, dist) before user offsets
(`_cam` lines 2447–2456): the locked per-chapter framing, blended during
chapter 3 toward the spherical coordinates of the danger-satellite
midpoint. -/
noncomputable def camFraming (inp : CamInputs) : ℝ × ℝ × ℝ :=
  let L := camLocked inp.ch
  if inp.ch = 3 then
    let sp := sphericalFromVec3 (dangerMid inp.t)
    (lerpR L.1 sp.2.2 (inp.p3 * 0.6),
      lerpR L.2.1 sp.2.1 (inp.p3 * 0.4),
      lerpR L.2.2 (L.2.2 - 1.8) inp.p3)
  else (L.1, L.2.1, L.2.2)

/-- The shake displacement added to the camera position while a shake
envelope is active (`_cam` lines 2473–2482); zero when the envelope is off
or has expired (elapsed time `> 1.8`). -/
noncomputable def camShakeOffset (shakeOn : Bool) (shakeT t : ℝ) : ℝ × ℝ :=
  if shakeOn = true ∧ ¬ (t - shakeT > 1.8) then
    let env := Real.exp (-(t - shakeT) * 3.2)
    let a := 0.22 * env
    (a * (Real.sin (t * 93) * 0.5 + Real.sin (t * 47) * 0.3 +
        Real.sin (t * 211) * 0.2),
      a * (Real.sin (t * 78) * 0.45 + Real.sin (t * 34) * 0.35 +
        Real.sin (t * 157) * 0.2))
  else (0, 0)

/-- One frame of `AstralEngine._cam`: returns the updated rig state and
the camera world position set this frame. -/
noncomputable def camStep (st : CamState) (inp : CamInputs) :
    CamState × Vec3 :=
  let fov' := st.currentFov + (FOV_MAP inp.ch - st.currentFov) * 0.022
  let user := camUserUpdate st inp
  let F := camFraming inp
  let targetTheta := F.1 + user.1
  let targetPhi := F.2.1 + user.2
  let targetRadius := F.2.2
  let sphTheta' := st.sphTheta + (targetTheta - st.sphTheta) * 0.035
  let sphPhi' := clampR (st.sphPhi + (targetPhi - st.sphPhi) * 0.035)
    0.15 (Real.pi - 0.15)
  let sphRadius' := st.sphRadius + (targetRadius - st.sphRadius) * 0.035
  let base := vec3FromSpherical sphRadius' sphPhi' sphTheta'
  let velSkew := inp.scrollVelocity * 15
  let shake := camShakeOffset st.shakeOn st.shakeT inp.t
  let shakeOn' :=
    if st.shakeOn = true ∧ inp.t - st.shakeT > 1.8 then false else st.shakeOn
  (⟨sphRadius', sphPhi', sphTheta', user.1, user.2, fov', shakeOn',
      st.shakeT⟩,
    ⟨base.x + shake.1, base.y + velSkew * 0.3 + shake.2, base.z⟩)

/-! # Theorems -/

/-! ## Claim C5: the chapter detector -/

theorem getChapter_mono {p q : ℚ} (hpq : p ≤ q) :
    getChapter p ≤ getChapter q := by
  unfold getChapter
  split_ifs <;> first
    | (exfalso; linarith)
    | norm_num

/-- **C5.** For every progress value, `getChapter` is monotonically
non-decreasing, returns values only in `{0,1,2,3,4}`, and
`getChapter 0.2 = 1`, `getChapter 0.19999 = 0`, `getChapter 1 = 4`
(breakpoints `0.2, 0.4, 0.6, 0.8`, closed-open intervals except the
last). -/
theorem getChapter_spec :
    (∀ p q : ℚ, p ≤ q → getChapter p ≤ getChapter q) ∧
    (∀ p : ℚ, getChapter p ≤ 4) ∧
    getChapter (1/5) = 1 ∧ getChapter (19999/100000) = 0 ∧ getChapter 1 = 4 := by
  refine ⟨fun p q hpq => getChapter_mono hpq, ?_,
    by norm_num [getChapter], by norm_num [getChapter],
    by norm_num [getChapter]⟩
  intro p
  unfold getChapter
  split_ifs <;> norm_num

/-- Witness for C5: the monotonicity conjunct applied at `p = 0`, `q = 1`. -/
theorem getChapter_spec_witness :
    (0 : ℚ) ≤ 1 ∧ getChapter 0 ≤ getChapter 1 :=
  ⟨by norm_num, getChapter_spec.1 0 1 (by norm_num)⟩

/-! ## Basic lemmas about the scalar utilities -/

theorem clampQ_le (v lo hi : ℚ) (h : lo ≤ hi) : clampQ v lo hi ≤ hi :=
  max_le h (min_le_left _ _)

theorem le_clampQ (v lo hi : ℚ) : lo ≤ clampQ v lo hi := le_max_left _ _

theorem clampQ_mono (lo hi : ℚ) {v w : ℚ} (h : v ≤ w) :
    clampQ v lo hi ≤ clampQ w lo hi :=
  max_le_max le_rfl (min_le_min le_rfl h)

theorem remapQ_nonneg (v a b : ℚ) : 0 ≤ remapQ v a b := le_clampQ _ _ _

theorem remapQ_le_one (v a b : ℚ) : remapQ v a b ≤ 1 :=
  clampQ_le _ _ _ (by norm_num)

theorem remapQ_mono (a b : ℚ) (hab : a < b) {v w : ℚ} (h : v ≤ w) :
    remapQ v a b ≤ remapQ w a b := by
  apply clampQ_mono
  have hb : 0 < b - a := by linarith
  exact (div_le_div_iff_of_pos_right hb).2 (by linarith)

theorem smootherstepQ_mono {a b : ℚ} (ha : 0 ≤ a) (hab : a ≤ b) (hb : b ≤ 1) :
    smootherstepQ a ≤ smootherstepQ b := by
  unfold smootherstepQ
  have hba : 0 ≤ b - a := sub_nonneg.2 hab
  have h1b : 0 ≤ 1 - b := sub_nonneg.2 hb
  have h1a : 0 ≤ 1 - a := by linarith
  have hb0 : 0 ≤ b := le_trans ha hab
  nlinarith [sq_nonneg (a*(1-a)), sq_nonneg (b*(1-b)), sq_nonneg (a*(1-b)),
    sq_nonneg (b*(1-a)), mul_nonneg hba (sq_nonneg (a*(1-a))),
    mul_nonneg hba (sq_nonneg (b*(1-b))),
    mul_nonneg hba (sq_nonneg (a*(1-b))), mul_nonneg hba (sq_nonneg (b*(1-a))),
    mul_nonneg hba (sq_nonneg (a - b)), mul_nonneg hba (sq_nonneg (a + b - 1)),
    mul_nonneg (mul_nonneg hba ha) h1b, mul_nonneg (mul_nonneg hba ha) h1a,
    mul_nonneg (mul_nonneg hba hb0) h1b]

/-! ## Claim C9: raw and smoothed progress stay in [0,1] -/

/-- **C9.** The raw scroll progress is clamped to `[0,1]` on every
scroll-event update, and one smoothing frame starting from a smoothed value
in `[0,1]` with raw in `[0,1]` yields a value still in `[0,1]`. -/
theorem scroll_progress_in_unit_interval :
    (∀ scrollY scrollMax : ℚ,
      0 ≤ rawUpdate scrollY scrollMax ∧ rawUpdate scrollY scrollMax ≤ 1) ∧
    (∀ raw s : ℚ, 0 ≤ raw → raw ≤ 1 → 0 ≤ s → s ≤ 1 →
      0 ≤ locoStep raw s ∧ locoStep raw s ≤ 1) := by
  constructor
  · intro scrollY scrollMax
    unfold rawUpdate
    split_ifs
    · exact ⟨le_clampQ _ _ _, clampQ_le _ _ _ (by norm_num)⟩
    · norm_num
  · intro raw s h0r h1r h0s h1s
    unfold locoStep locoSpeed
    split_ifs <;> constructor <;> linarith

/-- Witness for C9: both conjuncts applied at concrete inputs. -/
theorem scroll_progress_in_unit_interval_witness :
    (0 ≤ rawUpdate 30 100 ∧ rawUpdate 30 100 ≤ 1) ∧
    ((0:ℚ) ≤ 1 ∧ (1:ℚ) ≤ 1 ∧ (0:ℚ) ≤ 0 ∧ (0:ℚ) ≤ 1 ∧
      0 ≤ locoStep 1 0 ∧ locoStep 1 0 ≤ 1) :=
  ⟨scroll_progress_in_unit_interval.1 30 100,
    by norm_num, by norm_num, by norm_num, by norm_num,
    (scroll_progress_in_unit_interval.2 1 0 (by norm_num) (by norm_num)
      (by norm_num) (by norm_num)).1,
    (scroll_progress_in_unit_interval.2 1 0 (by norm_num) (by norm_num)
      (by norm_num) (by norm_num)).2⟩

/-! ## Claim C8: convergence of the smoothing step -/

theorem locoStep_contract (raw s : ℚ) :
    |raw - locoStep raw s| ≤ 243/250 * |raw - s| := by
  unfold locoStep locoSpeed
  split_ifs with h1 h2
  · simp [abs_nonneg]
  · have he : raw - (s + (raw - s) * (11/200)) = (raw - s) * (189/200) := by
      ring
    rw [he, abs_mul]
    have := abs_nonneg (raw - s)
    rw [abs_of_pos (by norm_num : (0:ℚ) < 189/200)]
    nlinarith
  · have he : raw - (s + (raw - s) * (7/250)) = (raw - s) * (243/250) := by
      ring
    rw [he, abs_mul]
    rw [abs_of_pos (by norm_num : (0:ℚ) < 243/250)]
    nlinarith [abs_nonneg (raw - s)]

theorem locoStep_no_overshoot (raw s : ℚ) :
    0 ≤ (raw - locoStep raw s) * (raw - s) := by
  unfold locoStep locoSpeed
  split_ifs with h1 h2
  · simp
  · nlinarith [sq_nonneg (raw - s)]
  · nlinarith [sq_nonneg (raw - s)]

theorem locoIter_dist_le (raw s : ℚ) :
    ∀ n, |raw - locoIter raw s n| ≤ (243/250)^n * |raw - s| := by
  intro n
  induction n with
  | zero => simp [locoIter]
  | succ n ih =>
    calc |raw - locoIter raw s (n+1)|
        ≤ 243/250 * |raw - locoIter raw s n| := locoStep_contract _ _
      _ ≤ 243/250 * ((243/250)^n * |raw - s|) := by linarith
      _ = (243/250)^(n+1) * |raw - s| := by ring

/-- **C8.** Holding `raw` constant, repeated application of the smoothing
step drives `|smoothed - raw|` below any positive `ε` within a bounded
number of steps; moreover each step shrinks the distance to `raw` by a
factor of at most `243/250 < 1` and preserves the sign of the remaining
delta, so the sequence never overshoots and oscillates. -/
theorem smoothed_scroll_converges :
    (∀ raw s ε : ℚ, 0 < ε → ∃ N, ∀ n, N ≤ n → |raw - locoIter raw s n| < ε) ∧
    (∀ raw s : ℚ, ∀ n : ℕ,
      |raw - locoIter raw s (n+1)| ≤ 243/250 * |raw - locoIter raw s n| ∧
      0 ≤ (raw - locoIter raw s (n+1)) * (raw - locoIter raw s n)) := by
  constructor
  · intro raw s ε hε
    have hd0 : (0:ℚ) ≤ |raw - s| := abs_nonneg _
    have hεd : 0 < ε / (|raw - s| + 1) := by positivity
    obtain ⟨N, hN⟩ :=
      exists_pow_lt_of_lt_one hεd (by norm_num : (243/250 : ℚ) < 1)
    refine ⟨N, fun n hn => ?_⟩
    have hpow : ((243:ℚ)/250)^n ≤ (243/250)^N :=
      pow_le_pow_of_le_one (by norm_num) (by norm_num) hn
    have h1 : |raw - locoIter raw s n| ≤ (243/250)^n * |raw - s| :=
      locoIter_dist_le raw s n
    have h2 : ((243:ℚ)/250)^n * |raw - s| ≤ (243/250)^N * (|raw - s| + 1) := by
      have : ((243:ℚ)/250)^N ≤ 1 :=
        pow_le_one₀ (by norm_num) (by norm_num)
      nlinarith [pow_nonneg (by norm_num : (0:ℚ) ≤ 243/250) n,
        pow_nonneg (by norm_num : (0:ℚ) ≤ 243/250) N]
    have h3 : ((243:ℚ)/250)^N * (|raw - s| + 1) < ε := by
      have hlt := hN
      rw [lt_div_iff₀ (by positivity : (0:ℚ) < |raw - s| + 1)] at hlt
      linarith
    linarith
  · intro raw s n
    exact ⟨locoStep_contract _ _, locoStep_no_overshoot _ _⟩

/-- Witness for C8: convergence applied at `raw = 1`, `s = 0`,
`ε = 1/2`. -/
theorem smoothed_scroll_converges_witness :
    (0:ℚ) < 1/2 ∧ ∃ N, ∀ n, N ≤ n → |1 - locoIter 1 0 n| < (1/2 : ℚ) :=
  ⟨by norm_num, smoothed_scroll_converges.1 1 0 (1/2) (by norm_num)⟩

/-! ## Claim C6: Kessler-ring cloud opacity -/

/-- **C6 counterexample.**  The claim that, while the chapter stays 4 with
the collision triggered, a decrease of the progress value never decreases
the Kessler cloud's opacity, is false: the opacity is a pure monotone
function of the current progress, so scrolling back from `p = 0.95` to
`q = 0.85` reduces it from `0.8` to `53/256`. -/
theorem kessler_opacity_backscroll_cex :
    ¬ (∀ p q : ℚ, getChapter p = 4 → getChapter q = 4 → q ≤ p →
        kesslerOpacity true p ≤ kesslerOpacity true q) := by
  intro h
  have h1 := h (19/20) (17/20) (by norm_num [getChapter])
    (by norm_num [getChapter]) (by norm_num)
  norm_num [kesslerOpacity, getChapter, clampQ, remapQ, smootherstepQ] at h1

/-- **C6 (amended).**  The Kessler cloud's opacity is always capped at
`0.8`, strictly below full opacity; it is a monotone non-decreasing pure
function of the *current* progress (so it ramps up as terminal-phase
progress advances), but it is recomputed from the current progress each
frame, hence backward scrolling within chapter 4 *does* reduce it — the
irreversibility stated by the claim does not hold. -/
theorem kessler_opacity_capped_monotone :
    (∀ (done : Bool) (p : ℚ),
      0 ≤ kesslerOpacity done p ∧ kesslerOpacity done p ≤ 4/5 ∧
      kesslerOpacity done p < 1) ∧
    (∀ p q : ℚ, p ≤ q → kesslerOpacity true p ≤ kesslerOpacity true q) := by
  constructor
  · intro done p
    unfold kesslerOpacity
    split_ifs
    · refine ⟨le_clampQ _ _ _, clampQ_le _ _ _ (by norm_num), ?_⟩
      exact lt_of_le_of_lt (clampQ_le _ _ _ (by norm_num)) (by norm_num)
    · norm_num
  · intro p q hpq
    unfold kesslerOpacity
    split_ifs with h1 h2 h2
    · apply clampQ_mono
      have hm : remapQ p (4/5) 1 ≤ remapQ q (4/5) 1 :=
        remapQ_mono _ _ (by norm_num) hpq
      have := smootherstepQ_mono (remapQ_nonneg p (4/5) 1) hm
        (remapQ_le_one q (4/5) 1)
      linarith
    · exfalso
      exact h2 ⟨le_trans h1.1 (getChapter_mono hpq), h1.2⟩
    · exact le_clampQ _ _ _
    · exact le_refl 0

/-- Witness for the amended C6 theorem: both conjuncts at concrete
inputs. -/
theorem kessler_opacity_capped_monotone_witness :
    (0 ≤ kesslerOpacity true (9/10) ∧ kesslerOpacity true (9/10) ≤ 4/5 ∧
      kesslerOpacity true (9/10) < 1) ∧
    ((17/20 : ℚ) ≤ 19/20 ∧
      kesslerOpacity true (17/20) ≤ kesslerOpacity true (19/20)) :=
  ⟨kessler_opacity_capped_monotone.1 true (9/10),
    by norm_num,
    kessler_opacity_capped_monotone.2 (17/20) (19/20) (by norm_num)⟩

/-! ## Vector lemmas -/

theorem Vec3.normSq_nonneg (v : Vec3) : 0 ≤ v.normSq := by
  unfold Vec3.normSq; positivity

theorem Vec3.norm_nonneg (v : Vec3) : 0 ≤ v.norm := Real.sqrt_nonneg _

theorem Vec3.norm_scale (c : ℝ) (v : Vec3) :
    (Vec3.scale c v).norm = |c| * v.norm := by
  unfold Vec3.norm Vec3.scale Vec3.normSq
  simp only []
  rw [show (c * v.x)^2 + (c * v.y)^2 + (c * v.z)^2
      = c^2 * (v.x^2 + v.y^2 + v.z^2) by ring]
  rw [Real.sqrt_mul (sq_nonneg c), Real.sqrt_sq_eq_abs]

theorem Vec3.norm_setLength {v : Vec3} (l : ℝ) (hv : v.norm ≠ 0)
    (hl : 0 ≤ l) : (v.setLength l).norm = l := by
  unfold Vec3.setLength
  rw [Vec3.norm_scale, if_neg hv, abs_div, abs_of_nonneg hl,
    abs_of_nonneg (Vec3.norm_nonneg v), div_mul_cancel₀]
  exact hv

theorem Vec3.norm_sq' (v : Vec3) : v.norm^2 = v.normSq :=
  Real.sq_sqrt (Vec3.normSq_nonneg v)

/-! ## Claim C10: the orbital kinematics preserve radius -/

theorem orbitPos_normSq (radius inc asc angle : ℝ) :
    (orbitPos radius inc asc angle).normSq = radius^2 := by
  unfold orbitPos Vec3.normSq
  simp only []
  linear_combination
    ((Real.cos angle * radius)^2 +
        (Real.sin angle * radius * Real.cos inc)^2) *
      (Real.sin_sq_add_cos_sq asc) +
    (Real.sin angle * radius)^2 * (Real.sin_sq_add_cos_sq inc) +
    radius^2 * (Real.sin_sq_add_cos_sq angle)

/-- **C10.** For every orbit radius `r ≥ 0`, inclination, right ascension
and phase angle, `orbitPos` returns a point at distance exactly `r` from the
world origin; consequently every satellite's position `satPos s t` stays on
the sphere of its fixed orbit radius for all times `t`. -/
theorem orbitPos_preserves_radius :
    (∀ radius inc asc angle : ℝ, 0 ≤ radius →
      (orbitPos radius inc asc angle).norm = radius) ∧
    (∀ (s : Sat) (t : ℝ), 0 ≤ s.r → (satPos s t).norm = s.r) := by
  have key : ∀ radius inc asc angle : ℝ, 0 ≤ radius →
      (orbitPos radius inc asc angle).norm = radius := by
    intro radius inc asc angle hr
    unfold Vec3.norm
    rw [orbitPos_normSq, Real.sqrt_sq hr]
  exact ⟨key, fun s t hr => key s.r s.inc s.asc (s.phase + s.speed * t) hr⟩

/-- Witness for C10: a unit orbit at time zero. -/
theorem orbitPos_preserves_radius_witness :
    ((0:ℝ) ≤ 1 ∧ (orbitPos 1 0 0 0).norm = 1) ∧
    ((0:ℝ) ≤ 1 ∧ (satPos ⟨1, 0, 0, 0, 0⟩ 0).norm = 1) :=
  ⟨⟨zero_le_one, orbitPos_preserves_radius.1 1 0 0 0 zero_le_one⟩,
    ⟨zero_le_one, orbitPos_preserves_radius.2 ⟨1, 0, 0, 0, 0⟩ 0 zero_le_one⟩⟩

/-! ## Collision state machine lemmas -/

theorem dangerStep_ch4_done (t : ℝ) (s : CollisionState)
    (h : s.collisionDone = true) : dangerStep 4 t s = s := by
  simp [dangerStep, h]

theorem dangerRun_ch4_done (ts : List ℝ) (s : CollisionState)
    (h : s.collisionDone = true) :
    dangerRun (ts.map fun t => (4, t)) s = s := by
  induction ts with
  | nil => rfl
  | cons t ts ih =>
    show dangerRun ((ts.map fun t => (4, t))) (dangerStep 4 t s) = s
    rw [dangerStep_ch4_done t s h, ih]

/-! ## Claim C1: the collision trigger fires exactly once -/

/-- **C1.** On the first frame the chapter is 4 while the flag is false,
the flag flips to true and the collision point and time are recorded from
the danger satellites' midpoint at that instant; on every subsequent frame
in which the chapter remains 4 the flag does not flip again and the recorded
collision point and time stay fixed. -/
theorem collision_trigger_once (t0 : ℝ) (ts : List ℝ) (s : CollisionState)
    (h : s.collisionDone = false) :
    ((dangerStep 4 t0 s).collisionDone = true ∧
      (dangerStep 4 t0 s).collisionPt = dangerMid t0 ∧
      (dangerStep 4 t0 s).collisionTime = t0) ∧
    (dangerRun (ts.map fun t => (4, t)) (dangerStep 4 t0 s)
        = dangerStep 4 t0 s) := by
  have htrig : dangerStep 4 t0 s =
      { collisionDone := true, collisionTime := t0,
        collisionPt := dangerMid t0, collisionR := (dangerMid t0).norm } := by
    simp [dangerStep, h]
  refine ⟨⟨?_, ?_, ?_⟩, ?_⟩
  · rw [htrig]
  · rw [htrig]
  · rw [htrig]
  · exact dangerRun_ch4_done ts _ (by rw [htrig])

/-- Witness for C1: the trigger applied to the initial engine state at
`t = 0`, followed by two further chapter-4 frames. -/
theorem collision_trigger_once_witness :
    collisionInit.collisionDone = false ∧
    ((dangerStep 4 0 collisionInit).collisionDone = true ∧
      (dangerStep 4 0 collisionInit).collisionPt = dangerMid 0 ∧
      (dangerStep 4 0 collisionInit).collisionTime = 0) ∧
    (dangerRun ([1, 2].map fun t => (4, t)) (dangerStep 4 0 collisionInit)
        = dangerStep 4 0 collisionInit) :=
  ⟨rfl, collision_trigger_once 0 [1, 2] collisionInit rfl⟩

/-! ## Claim C2: when is the triggered flag cleared? -/

/-- **C2 counterexample.**  The claim that the flag is false whenever the
chapter is below 4 (equivalently, that the `triggered → idle` transition
occurs on the frame the chapter drops below 4) is false for the engine:
a frame with chapter 3 leaves a set flag untouched.  Concretely, trigger at
`t = 1` (chapter 4) and then scroll back to chapter 3 at `t = 2`: the flag
is still true although the chapter is 3 < 4. -/
theorem collision_flag_below4_cex :
    ¬ (∀ (s : CollisionState) (ch : ℕ) (t : ℝ), ch < 4 →
        (dangerStep ch t s).collisionDone = false) := by
  intro hclaim
  have h4 := hclaim (dangerStep 4 1 collisionInit) 3 2 (by norm_num)
  have htrig : (dangerStep 4 1 collisionInit).collisionDone = true := by
    simp [dangerStep, collisionInit]
  rw [show dangerStep 3 2 (dangerStep 4 1 collisionInit)
      = dangerStep 4 1 collisionInit by simp [dangerStep, htrig]] at h4
  rw [htrig] at h4
  exact absurd h4 (by simp)

/-- **C2 (amended).**  After a frame at chapter `ch ≤ 4`, the flag is true
iff the chapter is 4, or the chapter is 3 and the flag was already true.
Hence the `triggered → idle` transition occurs exactly on the frame the
chapter drops *below 3* while triggered (not below 4: scrolling back only
into chapter 3 keeps the flag set), and the flag is false whenever the
chapter is below 3. -/
theorem collision_flag_characterization (s : CollisionState) (ch : ℕ)
    (t : ℝ) (h : ch ≤ 4) :
    (dangerStep ch t s).collisionDone = true ↔
      (ch = 4 ∨ (ch = 3 ∧ s.collisionDone = true)) := by
  interval_cases ch <;> cases hs : s.collisionDone <;>
    simp [dangerStep, hs]

/-- Witness for the amended C2 theorem: a chapter-2 frame clears a set
flag. -/
theorem collision_flag_characterization_witness :
    (2 : ℕ) ≤ 4 ∧
    ((dangerStep 2 5 (dangerStep 4 1 collisionInit)).collisionDone = true ↔
      ((2 : ℕ) = 4 ∨ ((2 : ℕ) = 3 ∧
        (dangerStep 4 1 collisionInit).collisionDone = true))) :=
  ⟨by norm_num,
    collision_flag_characterization (dangerStep 4 1 collisionInit) 2 5
      (by norm_num)⟩

/-! ## Real scalar-utility lemmas -/

theorem clampR_le (v lo hi : ℝ) (h : lo ≤ hi) : clampR v lo hi ≤ hi :=
  max_le h (min_le_left _ _)

theorem le_clampR (v lo hi : ℝ) : lo ≤ clampR v lo hi := le_max_left _ _

theorem clampR_mono (lo hi : ℝ) {v w : ℝ} (h : v ≤ w) :
    clampR v lo hi ≤ clampR w lo hi :=
  max_le_max le_rfl (min_le_min le_rfl h)

theorem remapR_nonneg (v a b : ℝ) : 0 ≤ remapR v a b := le_clampR _ _ _

theorem remapR_le_one (v a b : ℝ) : remapR v a b ≤ 1 :=
  clampR_le _ _ _ (by norm_num)

theorem remapR_mono (a b : ℝ) (hab : a < b) {v w : ℝ} (h : v ≤ w) :
    remapR v a b ≤ remapR w a b := by
  apply clampR_mono
  have hb : 0 < b - a := by linarith
  exact (div_le_div_iff_of_pos_right hb).2 (by linarith)

theorem outExpo_nonneg {t : ℝ} (ht : 0 ≤ t) : 0 ≤ outExpo t := by
  unfold outExpo
  split_ifs
  · norm_num
  · have h1 : (2:ℝ) ^ (-10 * t) ≤ 1 :=
      Real.rpow_le_one_of_one_le_of_nonpos (by norm_num) (by linarith)
    linarith

theorem outExpo_le_one (t : ℝ) : outExpo t ≤ 1 := by
  unfold outExpo
  split_ifs
  · exact le_refl 1
  · have h1 : (0:ℝ) < (2:ℝ) ^ (-10 * t) :=
      Real.rpow_pos_of_pos (by norm_num) _
    linarith

theorem outExpo_mono {a b : ℝ} (hab : a ≤ b) (hb : b ≤ 1) :
    outExpo a ≤ outExpo b := by
  unfold outExpo
  split_ifs with h1 h2 h2
  · exact le_refl 1
  · exfalso
    apply h2
    rw [h1] at hab
    exact le_antisymm hb hab
  · have h3 : (0:ℝ) < (2:ℝ) ^ (-10 * a) :=
      Real.rpow_pos_of_pos (by norm_num) _
    linarith
  · have h3 : (2:ℝ) ^ (-10 * b) ≤ (2:ℝ) ^ (-10 * a) :=
      Real.rpow_le_rpow_of_exponent_le (by norm_num) (by linarith)
    linarith

theorem roundR_mono {x y : ℝ} (h : x ≤ y) : round x ≤ round y := by
  rw [round_eq, round_eq]
  exact Int.floor_mono (by linarith)

/-! ## Claim C4: the satellite visible count -/

theorem visCount_ch1 (p : ℝ) (h : chapterAt p = 1) :
    visCount p = round (lerpR 4 200 (outExpo (remapR p 0.2 0.4))) := by
  rw [visCount, h]
  norm_num

/-- **C4.** The visible count is non-decreasing in progress within the
congestion chapter (chapter 1), equals the full pool size 200 at the
chapter-2 boundary `p = 0.4`, equals 4 throughout chapter 0, and always
lies between 0 and the pool size. -/
theorem visible_count_spec :
    (∀ p q : ℝ, chapterAt p = 1 → chapterAt q = 1 → p ≤ q →
      visCount p ≤ visCount q) ∧
    visCount 0.4 = 200 ∧
    (∀ p : ℝ, chapterAt p = 0 → visCount p = 4) ∧
    (∀ p : ℝ, 0 ≤ visCount p ∧ visCount p ≤ 200) := by
  have hround4 : round (4:ℝ) = 4 := by norm_num [round_eq]
  have hround200 : round (200:ℝ) = 200 := by norm_num [round_eq]
  have hlerp_lo : ∀ e : ℝ, 0 ≤ e → (4:ℝ) ≤ lerpR 4 200 e := by
    intro e he; unfold lerpR; nlinarith
  have hlerp_hi : ∀ e : ℝ, e ≤ 1 → lerpR 4 200 e ≤ 200 := by
    intro e he; unfold lerpR; nlinarith
  refine ⟨?_, ?_, ?_, ?_⟩
  · intro p q hp hq hpq
    rw [visCount_ch1 p hp, visCount_ch1 q hq]
    apply roundR_mono
    have he : outExpo (remapR p 0.2 0.4) ≤ outExpo (remapR q 0.2 0.4) :=
      outExpo_mono (remapR_mono _ _ (by norm_num) hpq)
        (remapR_le_one _ _ _)
    unfold lerpR
    nlinarith
  · have hch : chapterAt (0.4 : ℝ) = 2 := by norm_num [chapterAt]
    rw [visCount, hch]
    norm_num
  · intro p hp
    rw [visCount, hp]
    norm_num
  · intro p
    rw [visCount]
    split_ifs with h0 h1
    · norm_num
    · constructor
      · calc (0:ℤ) ≤ 4 := by norm_num
          _ = round (4:ℝ) := hround4.symm
          _ ≤ round (lerpR 4 200 (outExpo (remapR p 0.2 0.4))) :=
            roundR_mono (hlerp_lo _ (outExpo_nonneg (remapR_nonneg _ _ _)))
      · calc round (lerpR 4 200 (outExpo (remapR p 0.2 0.4)))
            ≤ round (200:ℝ) :=
              roundR_mono (hlerp_hi _ (outExpo_le_one _))
          _ = 200 := hround200
    · norm_num

/-- Witness for C4: monotonicity applied at `p = 0.25 ≤ q = 0.3` (both in
chapter 1), the chapter-0 value at `p = 0.1`, and the bounds at
`p = 0.5`. -/
theorem visible_count_spec_witness :
    (chapterAt 0.25 = 1 ∧ chapterAt 0.3 = 1 ∧ (0.25:ℝ) ≤ 0.3 ∧
      visCount 0.25 ≤ visCount 0.3) ∧
    (chapterAt 0.1 = 0 ∧ visCount 0.1 = 4) ∧
    (0 ≤ visCount 0.5 ∧ visCount 0.5 ≤ 200) :=
  ⟨⟨by norm_num [chapterAt], by norm_num [chapterAt], by norm_num,
      visible_count_spec.1 0.25 0.3 (by norm_num [chapterAt])
        (by norm_num [chapterAt]) (by norm_num)⟩,
    ⟨by norm_num [chapterAt],
      visible_count_spec.2.2.1 0.1 (by norm_num [chapterAt])⟩,
    visible_count_spec.2.2.2 0.5⟩

/-! ## Square-root comparison helpers -/

theorem sqrt_le_of_sq {x y : ℝ} (hy : 0 ≤ y) (h : x ≤ y^2) :
    Real.sqrt x ≤ y := by
  calc Real.sqrt x ≤ Real.sqrt (y^2) := Real.sqrt_le_sqrt h
    _ = y := Real.sqrt_sq hy

theorem le_sqrt_of_sq {x y : ℝ} (hy : 0 ≤ y) (h : y^2 ≤ x) :
    y ≤ Real.sqrt x := by
  calc y = Real.sqrt (y^2) := (Real.sqrt_sq hy).symm
    _ ≤ Real.sqrt x := Real.sqrt_le_sqrt h

theorem Vec3.norm_pos {v : Vec3} (h : 0 < v.normSq) : 0 < v.norm :=
  Real.sqrt_pos.2 h

theorem Vec3.abs_x_le_norm (v : Vec3) : |v.x| ≤ v.norm := by
  rw [← Real.sqrt_sq_eq_abs]
  apply Real.sqrt_le_sqrt
  unfold Vec3.normSq
  nlinarith [sq_nonneg v.y, sq_nonneg v.z]

theorem Vec3.abs_z_le_norm (v : Vec3) : |v.z| ≤ v.norm := by
  rw [← Real.sqrt_sq_eq_abs]
  apply Real.sqrt_le_sqrt
  unfold Vec3.normSq
  nlinarith [sq_nonneg v.x, sq_nonneg v.y]

/-! ## Claim C3: the debris clamp band -/

/-- After the clamp sub-step of `_debris`, the distance of the particle
from the **world origin** lies in `[EARTH_RADIUS * 1.03, R * 1.18]`
(provided the floor `EARTH_RADIUS * 1.03` sits below the band's lower edge
`R * 0.85`, which holds for every realistic collision radius, and the
integrated position is nonzero). -/
theorem debrisClamp_band (R : ℝ) (p1 : Vec3)
    (hR : EARTH_RADIUS * 1.03 ≤ R * 0.85) (hp : p1.norm ≠ 0) :
    EARTH_RADIUS * 1.03 ≤ (debrisClamp R p1).norm ∧
    (debrisClamp R p1).norm ≤ R * 1.18 := by
  have hE : EARTH_RADIUS * 1.03 = 2.266 := by norm_num [EARTH_RADIUS]
  have hR0 : 0 < R := by rw [hE] at hR; linarith
  have hlen0 : 0 < p1.norm :=
    lt_of_le_of_ne (Vec3.norm_nonneg p1) (Ne.symm hp)
  have h85 : (0:ℝ) ≤ R * 0.85 := by positivity
  have h118 : (0:ℝ) ≤ R * 1.18 := by positivity
  have hEpos : (0:ℝ) ≤ EARTH_RADIUS * 1.03 := by rw [hE]; norm_num
  have hltband : R * 0.85 ≤ R * 1.18 := by nlinarith
  have hsl85 : (p1.setLength (R * 0.85)).norm = R * 0.85 :=
    Vec3.norm_setLength _ hp h85
  have hsl118 : (p1.setLength (R * 1.18)).norm = R * 1.18 :=
    Vec3.norm_setLength _ hp h118
  simp only [debrisClamp]
  split_ifs with hC hB hA hA' hB' hA''
  · exfalso; linarith
  · rw [Vec3.norm_setLength _ (by rw [hsl85]; positivity) hEpos]
    constructor
    · exact le_refl _
    · linarith
  · exfalso; linarith
  · exfalso; linarith
  · exfalso; linarith
  · rw [hsl85]
    exact ⟨hR, hltband⟩
  · rw [hsl118]
    exact ⟨by linarith, le_refl _⟩
  · constructor <;> linarith

/-- The per-frame drift (`±0.0025` on x and z) moves the distance from the
origin by at most `0.006`, provided that distance is at least `0.018`. -/
theorem norm_drift_bound (q : Vec3) (a b : ℝ) (ha : |a| ≤ 0.0025)
    (hb : |b| ≤ 0.0025) (hq : 0.018 ≤ q.norm) :
    q.norm - 0.006 ≤ (Vec3.mk (q.x + a) q.y (q.z + b)).norm ∧
    (Vec3.mk (q.x + a) q.y (q.z + b)).norm ≤ q.norm + 0.006 := by
  have hN0 : (0:ℝ) ≤ q.norm := Vec3.norm_nonneg q
  have hNsq : q.norm^2 = q.normSq := Vec3.norm_sq' q
  have hx := Vec3.abs_x_le_norm q
  have hz := Vec3.abs_z_le_norm q
  have hax : a * q.x ≤ 0.0025 * q.norm := by
    calc a * q.x ≤ |a * q.x| := le_abs_self _
      _ = |a| * |q.x| := abs_mul _ _
      _ ≤ 0.0025 * q.norm := by
          apply mul_le_mul ha hx (abs_nonneg _) (by norm_num)
  have hax' : -(0.0025 * q.norm) ≤ a * q.x := by
    have : -(a * q.x) ≤ |a * q.x| := neg_le_abs _
    have h2 : |a * q.x| ≤ 0.0025 * q.norm := by
      rw [abs_mul]
      apply mul_le_mul ha hx (abs_nonneg _) (by norm_num)
    linarith
  have hbz : b * q.z ≤ 0.0025 * q.norm := by
    calc b * q.z ≤ |b * q.z| := le_abs_self _
      _ = |b| * |q.z| := abs_mul _ _
      _ ≤ 0.0025 * q.norm := by
          apply mul_le_mul hb hz (abs_nonneg _) (by norm_num)
  have hbz' : -(0.0025 * q.norm) ≤ b * q.z := by
    have : -(b * q.z) ≤ |b * q.z| := neg_le_abs _
    have h2 : |b * q.z| ≤ 0.0025 * q.norm := by
      rw [abs_mul]
      apply mul_le_mul hb hz (abs_nonneg _) (by norm_num)
    linarith
  have ha2 : a^2 ≤ 0.0025^2 := by
    rw [← sq_abs]
    apply pow_le_pow_left₀ (abs_nonneg a) ha
  have hb2 : b^2 ≤ 0.0025^2 := by
    rw [← sq_abs]
    apply pow_le_pow_left₀ (abs_nonneg b) hb
  have hfin : (Vec3.mk (q.x + a) q.y (q.z + b)).normSq
      = q.normSq + 2*(a*q.x) + a^2 + 2*(b*q.z) + b^2 := by
    unfold Vec3.normSq
    ring
  constructor
  · apply le_sqrt_of_sq (by linarith)
    rw [hfin, ← hNsq]
    nlinarith [sq_nonneg a, sq_nonneg b]
  · apply sqrt_le_of_sq (by linarith)
    rw [hfin, ← hNsq]
    nlinarith

/-- **C3 (amended).**  The clamp in `_debris` acts on the distance from the
**world origin** (the planet's centre), not on the distance from the
collision point: one full debris step leaves the distance from the origin
within `[EARTH_RADIUS * 1.03 - 0.006, R * 1.18 + 0.006]` — the clamp band
(whose effective floor is the planet-surface guard `EARTH_RADIUS * 1.03`)
widened by the bounded orbital-drift term — provided the stored collision
radius satisfies `EARTH_RADIUS * 1.03 ≤ R * 0.85` and the integrated
position is nonzero.  The distance from the collision point itself is not
kept inside the band (see the counterexample). -/
theorem debris_step_origin_band (R t dt : ℝ) (i : ℕ) (d : DebrisParticle)
    (hR : EARTH_RADIUS * 1.03 ≤ R * 0.85)
    (hp : (debrisIntegrate dt d).norm ≠ 0) :
    EARTH_RADIUS * 1.03 - 0.006 ≤ (debrisStep R t dt i d).pos.norm ∧
    (debrisStep R t dt i d).pos.norm ≤ R * 1.18 + 0.006 := by
  have hband := debrisClamp_band R (debrisIntegrate dt d) hR hp
  have hE : EARTH_RADIUS * 1.03 = 2.266 := by norm_num [EARTH_RADIUS]
  have hq : 0.018 ≤ (debrisClamp R (debrisIntegrate dt d)).norm := by
    rw [hE] at hband; linarith [hband.1]
  have ha : |Real.sin (t * (0.035 + d.life * 0.05) + i * 0.031) * 0.0025|
      ≤ 0.0025 := by
    rw [abs_mul]
    calc |Real.sin (t * (0.035 + d.life * 0.05) + i * 0.031)| * |(0.0025:ℝ)|
        ≤ 1 * |(0.0025:ℝ)| := by
          apply mul_le_mul_of_nonneg_right (Real.abs_sin_le_one _)
            (abs_nonneg _)
      _ = 0.0025 := by norm_num
  have hb : |Real.cos (t * (0.035 + d.life * 0.05) + i * 0.7) * 0.0025|
      ≤ 0.0025 := by
    rw [abs_mul]
    calc |Real.cos (t * (0.035 + d.life * 0.05) + i * 0.7)| * |(0.0025:ℝ)|
        ≤ 1 * |(0.0025:ℝ)| := by
          apply mul_le_mul_of_nonneg_right (Real.abs_cos_le_one _)
            (abs_nonneg _)
      _ = 0.0025 := by norm_num
  have hdrift := norm_drift_bound (debrisClamp R (debrisIntegrate dt d))
    _ _ ha hb hq
  have hposeq : (debrisStep R t dt i d).pos
      = Vec3.mk
          ((debrisClamp R (debrisIntegrate dt d)).x +
            Real.sin (t * (0.035 + d.life * 0.05) + i * 0.031) * 0.0025)
          (debrisClamp R (debrisIntegrate dt d)).y
          ((debrisClamp R (debrisIntegrate dt d)).z +
            Real.cos (t * (0.035 + d.life * 0.05) + i * 0.7) * 0.0025) := by
    simp only [debrisStep]
  rw [hposeq]
  exact ⟨by linarith [hdrift.1, hband.1], by linarith [hdrift.2, hband.2]⟩

/-- Witness for the amended C3 theorem: the band applied to a concrete
particle spawned near the collision point `(3,0,0)` with `R = 3`, at the
trigger frame (`t = dt = 0`, particle index 0). -/
theorem debris_step_origin_band_witness :
    (EARTH_RADIUS * 1.03 ≤ 3 * 0.85 ∧
      (debrisIntegrate 0 ⟨⟨3.01, 0, 0⟩, ⟨0, 2, 0⟩, 1, true⟩).norm ≠ 0) ∧
    (EARTH_RADIUS * 1.03 - 0.006 ≤
        (debrisStep 3 0 0 0 ⟨⟨3.01, 0, 0⟩, ⟨0, 2, 0⟩, 1, true⟩).pos.norm ∧
      (debrisStep 3 0 0 0 ⟨⟨3.01, 0, 0⟩, ⟨0, 2, 0⟩, 1, true⟩).pos.norm
        ≤ 3 * 1.18 + 0.006) := by
  have hR : EARTH_RADIUS * 1.03 ≤ 3 * 0.85 := by norm_num [EARTH_RADIUS]
  have hint : debrisIntegrate 0 ⟨⟨3.01, 0, 0⟩, ⟨0, 2, 0⟩, 1, true⟩
      = ⟨3.01, 0.02, 0⟩ := by
    simp only [debrisIntegrate]
    norm_num [Real.exp_zero]
  have hp : (debrisIntegrate 0
      (⟨⟨3.01, 0, 0⟩, ⟨0, 2, 0⟩, 1, true⟩ : DebrisParticle)).norm ≠ 0 := by
    rw [hint]
    have : (0:ℝ) < (Vec3.mk 3.01 0.02 0).norm := by
      apply Vec3.norm_pos
      norm_num [Vec3.normSq]
    linarith
  exact ⟨⟨hR, hp⟩, debris_step_origin_band 3 0 0 0 _ hR hp⟩

/-- **C3 counterexample.**  The claim that every active particle's distance
**from the collision point** stays within the clamp band
`[collisionR * 0.85, collisionR * 1.18]` is false: the clamp acts on the
distance from the world origin, and a particle spawned at the collision
point (as the trigger does, jittering positions by at most `±0.04` around
it) stays *near* the collision point — far below the band's lower edge.
Concretely, with collision point `(3,0,0)` (`collisionR = 3`, band
`[2.55, 3.54]`), a particle at `(3.01, 0, 0)` with velocity `(0,2,0)` ends
the trigger-frame step at distance `≈ 0.023 < 2.55` from the collision
point. -/
theorem debris_band_from_collision_point_cex :
    ¬ (∀ (cp : Vec3) (d : DebrisParticle) (t dt : ℝ) (i : ℕ),
        d.active = true → 0 ≤ dt →
        cp.norm * 0.85 ≤ Vec3.dist (debrisStep cp.norm t dt i d).pos cp ∧
        Vec3.dist (debrisStep cp.norm t dt i d).pos cp ≤ cp.norm * 1.18) := by
  intro hclaim
  have hcp : (Vec3.mk 3 0 0).norm = 3 := by
    have h9 : (Vec3.mk 3 0 0).normSq = 3^2 := by norm_num [Vec3.normSq]
    rw [Vec3.norm, h9, Real.sqrt_sq (by norm_num)]
  obtain ⟨hlo, _⟩ := hclaim ⟨3, 0, 0⟩ ⟨⟨3.01, 0, 0⟩, ⟨0, 2, 0⟩, 1, true⟩
    0 0 0 rfl le_rfl
  rw [hcp] at hlo
  have hint : debrisIntegrate 0 ⟨⟨3.01, 0, 0⟩, ⟨0, 2, 0⟩, 1, true⟩
      = ⟨3.01, 0.02, 0⟩ := by
    simp only [debrisIntegrate]
    norm_num [Real.exp_zero]
  have hsq : (Vec3.mk 3.01 0.02 0).normSq = 9.0605 := by
    norm_num [Vec3.normSq]
  have hnormle : (Vec3.mk 3.01 0.02 0).norm ≤ 3.54 := by
    rw [Vec3.norm, hsq]
    apply sqrt_le_of_sq (by norm_num)
    norm_num
  have hnormge : (2.55:ℝ) ≤ (Vec3.mk 3.01 0.02 0).norm := by
    rw [Vec3.norm, hsq]
    apply le_sqrt_of_sq (by norm_num)
    norm_num
  have hnormgeE : EARTH_RADIUS * 1.03 ≤ (Vec3.mk 3.01 0.02 0).norm := by
    rw [Vec3.norm, hsq, EARTH_RADIUS]
    apply le_sqrt_of_sq (by norm_num)
    norm_num
  have hclampeq : debrisClamp 3 ⟨3.01, 0.02, 0⟩ = ⟨3.01, 0.02, 0⟩ := by
    simp only [debrisClamp]
    rw [if_neg (by push_neg; linarith), if_neg (by push_neg; linarith),
      if_neg (by push_neg; linarith)]
  have hstep : (debrisStep 3 0 0 0
      (⟨⟨3.01, 0, 0⟩, ⟨0, 2, 0⟩, 1, true⟩ : DebrisParticle)).pos
      = ⟨3.01, 0.02, 0.0025⟩ := by
    simp only [debrisStep, hint, hclampeq]
    norm_num [Real.sin_zero, Real.cos_zero]
  rw [hstep] at hlo
  have hdist : Vec3.dist ⟨3.01, 0.02, 0.0025⟩ ⟨3, 0, 0⟩ < 2.55 := by
    have hsub : Vec3.sub ⟨3.01, 0.02, 0.0025⟩ ⟨3, 0, 0⟩
        = ⟨0.01, 0.02, 0.0025⟩ := by
      simp only [Vec3.sub]
      norm_num
    rw [Vec3.dist, hsub, Vec3.norm]
    have : (Vec3.mk 0.01 0.02 0.0025).normSq = 0.00050625 := by
      norm_num [Vec3.normSq]
    rw [this]
    rw [show (2.55:ℝ) = Real.sqrt (2.55^2) from
      (Real.sqrt_sq (by norm_num)).symm]
    apply Real.sqrt_lt_sqrt (by norm_num)
    norm_num
  linarith

/-! ## Claim C7: the camera position derivation -/

/-- **C7 counterexample.**  The claim that, outside an active shake
envelope, the camera's world position always equals the position derived
from the rig's spherical coordinates is false: every frame also applies the
scroll-velocity skew `camera.position.y += scrollVelocity * 15 * 0.3`
(`_cam` lines 2470–2471).  With `scrollVelocity = 1` and no shake the
camera sits `4.5` world units above the spherical-derived position. -/
theorem cam_position_spherical_cex :
    ¬ (∀ (st : CamState) (inp : CamInputs), st.shakeOn = false →
        (camStep st inp).2 =
          vec3FromSpherical (camStep st inp).1.sphRadius
            (camStep st inp).1.sphPhi (camStep st inp).1.sphTheta) := by
  intro hclaim
  have h := hclaim ⟨8.5, 1, 0, 0, 0, 50, false, 0⟩
    ⟨0, 0, 0, true, false, 0, 0, 1⟩ rfl
  have hy := congrArg Vec3.y h
  simp only [camStep, camShakeOffset, vec3FromSpherical] at hy
  norm_num at hy

/-- **C7 (amended).**  On every frame the camera's world position equals
the position derived from the rig's smoothed spherical coordinates (which
already blend the per-chapter locked framing, the chapter-3 danger-midpoint
framing, and the user azimuth/polar offsets) **plus the vertical
scroll-velocity skew** `scrollVelocity * 15 * 0.3`, plus the shake
displacement during an active shake envelope; in particular, with no active
shake and zero scroll velocity it equals the spherical-derived position
exactly. -/
theorem cam_position_formula (st : CamState) (inp : CamInputs)
    (h : st.shakeOn = false) :
    (camStep st inp).2 =
      Vec3.mk
        (vec3FromSpherical (camStep st inp).1.sphRadius
          (camStep st inp).1.sphPhi (camStep st inp).1.sphTheta).x
        ((vec3FromSpherical (camStep st inp).1.sphRadius
          (camStep st inp).1.sphPhi (camStep st inp).1.sphTheta).y
          + inp.scrollVelocity * 15 * 0.3)
        (vec3FromSpherical (camStep st inp).1.sphRadius
          (camStep st inp).1.sphPhi (camStep st inp).1.sphTheta).z ∧
    (inp.scrollVelocity = 0 →
      (camStep st inp).2 =
        vec3FromSpherical (camStep st inp).1.sphRadius
          (camStep st inp).1.sphPhi (camStep st inp).1.sphTheta) := by
  constructor
  · simp only [camStep, camShakeOffset, h]
    norm_num
  · intro hv
    simp only [camStep, camShakeOffset, h, hv, vec3FromSpherical]
    norm_num

/-- Witness for the amended C7 theorem: a concrete no-shake state and
input. -/
theorem cam_position_formula_witness :
    (⟨8.5, 1, 0, 0, 0, 50, false, 0⟩ : CamState).shakeOn = false ∧
    ((camStep ⟨8.5, 1, 0, 0, 0, 50, false, 0⟩ ⟨0, 0, 0, true, false, 0, 0, 1⟩).2 =
      Vec3.mk
        (vec3FromSpherical
          (camStep ⟨8.5, 1, 0, 0, 0, 50, false, 0⟩
            ⟨0, 0, 0, true, false, 0, 0, 1⟩).1.sphRadius
          (camStep ⟨8.5, 1, 0, 0, 0, 50, false, 0⟩
            ⟨0, 0, 0, true, false, 0, 0, 1⟩).1.sphPhi
          (camStep ⟨8.5, 1, 0, 0, 0, 50, false, 0⟩
            ⟨0, 0, 0, true, false, 0, 0, 1⟩).1.sphTheta).x
        ((vec3FromSpherical
          (camStep ⟨8.5, 1, 0, 0, 0, 50, false, 0⟩
            ⟨0, 0, 0, true, false, 0, 0, 1⟩).1.sphRadius
          (camStep ⟨8.5, 1, 0, 0, 0, 50, false, 0⟩
            ⟨0, 0, 0, true, false, 0, 0, 1⟩).1.sphPhi
          (camStep ⟨8.5, 1, 0, 0, 0, 50, false, 0⟩
            ⟨0, 0, 0, true, false, 0, 0, 1⟩).1.sphTheta).y
          + (1:ℝ) * 15 * 0.3)
        (vec3FromSpherical
          (camStep ⟨8.5, 1, 0, 0, 0, 50, false, 0⟩
            ⟨0, 0, 0, true, false, 0, 0, 1⟩).1.sphRadius
          (camStep ⟨8.5, 1, 0, 0, 0, 50, false, 0⟩
            ⟨0, 0, 0, true, false, 0, 0, 1⟩).1.sphPhi
          (camStep ⟨8.5, 1, 0, 0, 0, 50, false, 0⟩
            ⟨0, 0, 0, true, false, 0, 0, 1⟩).1.sphTheta).z) :=
  ⟨rfl,
    (cam_position_formula ⟨8.5, 1, 0, 0, 0, 50, false, 0⟩
      ⟨0, 0, 0, true, false, 0, 0, 1⟩ rfl).1⟩

end Astral
